import Mathlib

/-!
Verification of the cross-posting pipeline (bloxa): a shallow embedding of
`main.py`, `telegram_poster.py`, `video_downloader.py` and the relevant
constants of `config.py`, together with theorems settling the frozen claims
about the de-duplication ledger, the per-item pipeline, the publish retry
policy, caption formatting and artifact cleanup.

Python strings are modelled as lists of Unicode code points (`List Char`),
the download directory as a finite set of file names, the in-memory ledger
mirror as a `Finset` of identifiers, and the durable ledger file as the list
of characters written so far.  Network calls (Telegram sends, yt-dlp
downloads) are modelled by explicit outcome oracles; each embedded function
additionally returns the list of observable events (attempts, deliveries,
sleeps, file deletions) it performs, in order.
-/

namespace Bloxa

/-- A Python `str`: a sequence of Unicode code points. -/
abbrev PyStr := List Char

/-- Coerce a Lean string literal to the Python-string model. -/
def pystr (s : String) : PyStr := s.data

/-- Telegram channel identifier (`CHANNEL_IDS` entries). -/
abbrev Channel := PyStr

/-- Item identifier, the string `f"{owner_id}_{id}"`. -/
abbrev Identifier := PyStr

/-! Constants from `config.py` and `telegram_poster.py`. -/

/-- `config.MAX_FILE_SIZE_MB = 50`. -/
def MAX_FILE_SIZE_MB : Nat := 50

/-- `config.DELETE_LOCAL_COPY = True`. -/
def DELETE_LOCAL_COPY : Bool := true

/-- `config.CHANNEL_IDS`. -/
def CHANNEL_IDS : List Channel := [pystr "@your_channel1", pystr "@your_channel2"]

/-- `AsyncTelegramPoster.MAX_CAPTION_LENGTH = 1024`. -/
def MAX_CAPTION_LENGTH : Nat := 1024

/-- `AsyncTelegramPoster.SUPPORTED_VIDEO_FORMATS = {'mp4', 'mov', 'mkv'}`. -/
def SUPPORTED_VIDEO_FORMATS : List PyStr := [pystr "mp4", pystr "mov", pystr "mkv"]

/-! Caption building and truncation (`Application._generate_caption`,
`AsyncTelegramPoster._truncate_text`). -/

/-- `str.replace('*', '★')`: Python's single-character replace, as used on
the title and the description in `_generate_caption`. -/
def replaceStar (s : PyStr) : PyStr := s.map fun c => if c = '*' then '★' else c

/-- A candidate item as consumed by the pipeline: the fields of the VK video
dict that `main.py` reads.  `dateStr` is the result of
`video['date'].strftime('%d.%m.%Y %H:%M')`, kept opaque. -/
structure Video where
  ownerId : Int
  vidNum : Int
  title : PyStr
  description : PyStr
  url : PyStr
  dateStr : PyStr
  views : Nat

/-- `video_id = f"{video['owner_id']}_{video['id']}"` (main.py line 147). -/
def videoId (v : Video) : Identifier :=
  pystr (toString v.ownerId) ++ '_' :: pystr (toString v.vidNum)

/-- `Application._generate_caption` (main.py lines 189-198). -/
def generateCaption (v : Video) : PyStr :=
  pystr "*" ++ replaceStar v.title ++ pystr "*\n\n" ++
  replaceStar v.description ++ pystr "\n\n📅 " ++ v.dateStr ++
  pystr " | 👀 " ++ pystr (toString v.views)

/-- The caption-only failure notice built in
`Application._handle_download_failure` (main.py line 203). -/
def downloadFailureCaption (v : Video) : PyStr :=
  pystr "*Не удалось загрузить видео*\n" ++ v.title ++ pystr "\n" ++ v.url

/-- `AsyncTelegramPoster._truncate_text` (telegram_poster.py lines 216-219):
`text[:max_length - 3] + '...' if len(text) > max_length else text`. -/
def truncateText (text : PyStr) (maxLength : Nat) : PyStr :=
  if text.length > maxLength then text.take (maxLength - 3) ++ pystr "..." else text

/-! The Ledger (`ApplicationState`, main.py lines 44-72). -/

/-- The mutable state of `ApplicationState` that the claims concern: the
in-memory set `processed_videos` and the durable `PROCESSED_VIDEOS_FILE`
content (the characters appended so far). -/
structure AppState where
  processedVideos : Finset Identifier
  ledgerFile : List Char

/-- Fresh state: empty set, no ledger file content yet. -/
def initialState : AppState := { processedVideos := ∅, ledgerFile := [] }

/-- `ApplicationState.save_processed_video` (main.py lines 64-72).  The file
append `f.write(f"{video_id}\n")` runs first; only if it succeeds does
control reach `self.processed_videos.add(video_id)`.  An I/O exception is
caught, logged and not re-raised, so the call returns with the state
untouched.  `appendOk` is the oracle for whether the durable append
succeeded. -/
def saveProcessedVideo (st : AppState) (videoId : Identifier) (appendOk : Bool) : AppState :=
  if appendOk then
    { processedVideos := insert videoId st.processedVideos,
      ledgerFile := st.ledgerFile ++ videoId ++ ['\n'] }
  else st

/-- The characters a sequence of successful `save_processed_video` calls
appends to an initially empty ledger file. -/
def ledgerLines : List Identifier → List Char
  | [] => []
  | id :: ids => id ++ '\n' :: ledgerLines ids

/-- Record a list of identifiers in order, every durable append succeeding. -/
def recordAll (st : AppState) (ids : List Identifier) : AppState :=
  ids.foldl (fun s id => saveProcessedVideo s id true) st

/-- The line-boundary characters of `str.splitlines` other than `'\r'`
(which is handled separately because of the `'\r\n'` pairing): LF, VT, FF,
FS, GS, RS, NEL, LINE SEPARATOR, PARAGRAPH SEPARATOR. -/
def isSplitBoundary (c : Char) : Bool :=
  c = '\n' || c = '\x0b' || c = '\x0c' || c = '\x1c' || c = '\x1d' || c = '\x1e' ||
  c = '\x85' || c = '\u2028' || c = '\u2029'

/-- Any character at which the ledger reload can break a line: `'\r'`
(translated by universal newlines on read) or a `splitlines` boundary. -/
def pythonLineBoundary (c : Char) : Bool := c = '\r' || isSplitBoundary c

/-- Universal-newline translation performed by `path.read_text` when the
ledger file is reloaded: `'\r\n'` and bare `'\r'` both become `'\n'`.  The
flag records whether the previous character was a `'\r'` (whose `'\n'` has
already been emitted), so the `'\n'` of a `'\r\n'` pair is dropped. -/
def unAux : Bool → List Char → List Char
  | _, [] => []
  | prevCr, c :: rest =>
    if c = '\n' ∧ prevCr = true then unAux false rest
    else if c = '\r' then '\n' :: unAux true rest
    else c :: unAux false rest

/-- `read_text`'s universal-newline translation of a whole file. -/
def universalNewlines (l : List Char) : List Char := unAux false l

/-- Python `str.splitlines`: split at every line boundary, a trailing
boundary producing no trailing empty line; `'\r\n'` counts as one boundary
(the flag marks a pending `'\r'` whose following `'\n'` must not split
again). -/
def splitAux : Bool → List Char → List (List Char)
  | _, [] => []
  | prevCr, c :: rest =>
    if c = '\n' ∧ prevCr = true then splitAux false rest
    else if c = '\r' then [] :: splitAux true rest
    else if isSplitBoundary c then [] :: splitAux false rest
    else
      match splitAux false rest with
      | [] => [[c]]
      | l :: ls => (c :: l) :: ls

/-- `str.splitlines` on a whole string. -/
def splitlines (l : List Char) : List (List Char) := splitAux false l

/-- `ApplicationState.load_processed_videos` (main.py lines 52-62) on an
existing ledger file: `self.processed_videos = set(content.splitlines())`
where `content` is the file read back with universal newlines. -/
def loadProcessedVideos (content : List Char) : Finset Identifier :=
  (splitlines (universalNewlines content)).toFinset

/-! The Telegram poster (`telegram_poster.py`). -/

/-- Outcome of one `bot.send_message` / `bot.send_video` call for one
channel, per the aiogram error taxonomy caught in the source: success,
`RetryAfter(timeout)`, `ChatNotFound`, `NetworkError`, or another
`TelegramAPIError`. -/
inductive TgOutcome where
  | ok (msgId : Nat)
  | retryAfter (timeout : Nat)
  | chatNotFound
  | networkError
  | apiError
  deriving DecidableEq

/-- Observable events of a pipeline run, in order. -/
inductive Event where
  | fetchCall (id : Identifier)
  | sendVideoCall (id : Identifier)
  | sendTextCall (id : Identifier) (message : PyStr)
  | attempt (ch : Channel)
  | sent (ch : Channel) (msgId : Nat) (payload : PyStr)
  | sleep (seconds : Nat)
  | deleteFile (name : PyStr)
  deriving DecidableEq

/-- The item an event belongs to: only the pipeline-level call events are
tagged with an identifier. -/
def Event.tag : Event → Option Identifier
  | .fetchCall id => some id
  | .sendVideoCall id => some id
  | .sendTextCall id _ => some id
  | _ => none

/-- Whether an event is a successful delivery to a destination. -/
def Event.isSent : Event → Bool
  | .sent _ _ _ => true
  | _ => false

/-- The delivery receipts contained in a trace, in order. -/
def sentReceipts (evs : List Event) : List (Channel × Nat) :=
  evs.filterMap fun e =>
    match e with
    | .sent ch m _ => some (ch, m)
    | _ => none

/-- The inner `for attempt in range(retries)` loop of
`AsyncTelegramPoster.send_text` (telegram_poster.py lines 87-104) for one
channel: success appends the message and breaks; `RetryAfter` sleeps exactly
the suggested timeout and retries; `ChatNotFound` and `NetworkError` break;
any other `TelegramAPIError` is logged and the loop continues with the next
attempt.  Returns the delivered message id (if any) and the event trace. -/
def sendTextAttempts (beh : Channel → Nat → TgOutcome) (payload : PyStr) (ch : Channel) :
    Nat → Nat → Option Nat × List Event
  | _, 0 => (none, [])
  | attempt, fuel + 1 =>
    match beh ch attempt with
    | .ok m => (some m, [.attempt ch, .sent ch m payload])
    | .retryAfter t =>
      let r := sendTextAttempts beh payload ch (attempt + 1) fuel
      (r.1, .attempt ch :: .sleep t :: r.2)
    | .chatNotFound => (none, [.attempt ch])
    | .networkError => (none, [.attempt ch])
    | .apiError =>
      let r := sendTextAttempts beh payload ch (attempt + 1) fuel
      (r.1, .attempt ch :: r.2)

/-- `AsyncTelegramPoster.send_text` (telegram_poster.py lines 68-105): for
each channel run the attempt loop on the truncated message; collect the
messages that were delivered. -/
def sendText (beh : Channel → Nat → TgOutcome) (message : PyStr) :
    List Channel → Nat → List (Channel × Nat) × List Event
  | [], _ => ([], [])
  | ch :: rest, retries =>
    let payload := truncateText message MAX_CAPTION_LENGTH
    let r1 := sendTextAttempts beh payload ch 0 retries
    let r2 := sendText beh message rest retries
    match r1.1 with
    | some m => ((ch, m) :: r2.1, r1.2 ++ r2.2)
    | none => (r2.1, r1.2 ++ r2.2)

/-- A file produced by the downloader: its path (name), lowercased
extension, and byte size. -/
structure FileInfo where
  name : PyStr
  ext : PyStr
  sizeBytes : Nat
  deriving DecidableEq

/-- The download directory: the set of files currently present. -/
structure FS where
  files : Finset PyStr

/-- `path.unlink` via `AsyncTelegramPoster._safe_delete`. -/
def FS.removeFile (fs : FS) (name : PyStr) : FS := ⟨fs.files.erase name⟩

/-- The exceptions `AsyncTelegramPoster._validate_video` can raise
(telegram_poster.py lines 186-198): `FileNotFoundError`, `ValueError` for an
unsupported extension, `ContentTooLargeError` (the only
`TelegramPosterError` among them) for an oversized file. -/
inductive SendVideoError where
  | fileNotFound
  | unsupportedFormat
  | contentTooLarge
  deriving DecidableEq

/-- `AsyncTelegramPoster._validate_video`: existence, extension and size
checks, in that order.  The float comparison
`st_size / (1024*1024) > MAX_FILE_SIZE_MB` is the integer comparison
`st_size > MAX_FILE_SIZE_MB * 1024 * 1024`. -/
def validateVideo (fs : FS) (f : FileInfo) : Option SendVideoError :=
  if f.name ∉ fs.files then some .fileNotFound
  else if f.ext ∉ SUPPORTED_VIDEO_FORMATS then some .unsupportedFormat
  else if f.sizeBytes > MAX_FILE_SIZE_MB * 1024 * 1024 then some .contentTooLarge
  else none

/-- The `for channel in channels` loop of `AsyncTelegramPoster.send_video`
(telegram_poster.py lines 126-141).  Each channel gets exactly one upload
attempt (the `retries` parameter is unused there); the whole body is under
`except Exception`, so any failure — including `RetryAfter` — is logged and
the loop moves on.  Opening a deleted file raises and is likewise swallowed.
On success the message is appended and, if `DELETE_LOCAL_COPY`, the file is
deleted on the spot. -/
def sendVideoLoop (beh : Channel → Nat → TgOutcome) (deleteFlag : Bool)
    (f : FileInfo) (payload : PyStr) :
    List Channel → FS → List (Channel × Nat) × FS × List Event
  | [], fs => ([], fs, [])
  | ch :: rest, fs =>
    if f.name ∈ fs.files then
      match beh ch 0 with
      | .ok m =>
        let fs1 := if deleteFlag then fs.removeFile f.name else fs
        let r := sendVideoLoop beh deleteFlag f payload rest fs1
        ((ch, m) :: r.1, r.2.1,
          .attempt ch :: .sent ch m payload ::
            (if deleteFlag then Event.deleteFile f.name :: r.2.2 else r.2.2))
      | _ =>
        let r := sendVideoLoop beh deleteFlag f payload rest fs
        (r.1, r.2.1, .attempt ch :: r.2.2)
    else
      let r := sendVideoLoop beh deleteFlag f payload rest fs
      (r.1, r.2.1, .attempt ch :: r.2.2)

/-- `AsyncTelegramPoster.send_video` (telegram_poster.py lines 107-142):
validate the file (raising on failure), then run the per-channel loop with
the truncated caption and return the delivered messages. -/
def sendVideoE (beh : Channel → Nat → TgOutcome) (deleteFlag : Bool)
    (caption : PyStr) (f : FileInfo) (channels : List Channel) (fs : FS) :
    Except SendVideoError (List (Channel × Nat)) × FS × List Event :=
  match validateVideo fs f with
  | some e => (.error e, fs, [])
  | none =>
    let payload := truncateText caption MAX_CAPTION_LENGTH
    let r := sendVideoLoop beh deleteFlag f payload channels fs
    (.ok r.1, r.2.1, r.2.2)

/-! The downloader (`video_downloader.py`) and cleanup. -/

/-- What yt-dlp does for one URL: fail with `DownloadError` (no output file
located) or produce a file. -/
inductive DlRaw where
  | ytdlpError
  | ok (f : FileInfo)

/-- The `VideoDownloadError` raised by `AsyncVideoDownloader.download`; the
size violation is distinguished because the generic `except Exception`
branch re-wraps `VideoSizeExceededError` without deleting the file. -/
inductive DownloadErr where
  | downloadError
  | sizeExceeded
  deriving DecidableEq

/-- `AsyncVideoDownloader.download` (video_downloader.py lines 53-106): on a
yt-dlp `DownloadError`, `final_path` is still unset, so nothing is deleted
and `VideoDownloadError` is raised.  On success the file exists; if its size
exceeds `MAX_FILE_SIZE_MB`, `VideoSizeExceededError` is raised inside the
`try` and caught by the function's own `except Exception` branch, which
re-raises `VideoDownloadError` — and does not unlink the file, so the
oversized artifact stays in the download directory. -/
def download (fs : FS) (raw : DlRaw) : Except DownloadErr FileInfo × FS :=
  match raw with
  | .ytdlpError => (.error .downloadError, fs)
  | .ok f =>
    let fs1 : FS := ⟨insert f.name fs.files⟩
    if f.sizeBytes > MAX_FILE_SIZE_MB * 1024 * 1024 then (.error .sizeExceeded, fs1)
    else (.ok f, fs1)

/-- `AsyncVideoDownloader.cleanup` (video_downloader.py lines 148-155): if
`DELETE_LOCAL_COPY`, unlink every file matched by
`download_path.glob('*')` — the entire directory, not a single artifact. -/
def cleanup (fs : FS) (deleteLocalCopy : Bool) : FS :=
  if deleteLocalCopy then ⟨∅⟩ else fs

/-- `Application._handle_posting_failure` (main.py lines 208-214): if the
failed item's artifact still exists, call `downloader.cleanup()`. -/
def handlePostingFailure (fs : FS) (videoPath : PyStr) (deleteLocalCopy : Bool) : FS :=
  if videoPath ∈ fs.files then cleanup fs deleteLocalCopy else fs

/-! The per-item pipeline and the sweep (`main.py`). -/

/-- The environment one item's processing runs against: the yt-dlp result,
the Telegram outcome oracle (channel × attempt), and whether the durable
ledger append succeeds. -/
structure ItemEnv where
  raw : DlRaw
  beh : Channel → Nat → TgOutcome
  appendOk : Bool

/-- Result of `Application._process_single_video`: the new ledger state, the
new download-directory state, the event trace, and whether an exception
escaped the method (a `FileNotFoundError`/`ValueError` from
`_validate_video` matches neither `except VideoDownloadError` nor
`except TelegramPosterError` and propagates, ending the sweep loop). -/
structure StepResult where
  st : AppState
  fs : FS
  events : List Event
  aborted : Bool

/-- `Application._process_single_video` (main.py lines 159-187): download;
on `VideoDownloadError` publish the caption-only failure notice via
`send_text` and return.  Otherwise call `send_video`; a
`ContentTooLargeError` (the only `TelegramPosterError` it can raise) goes to
`_handle_posting_failure`; its other validation exceptions propagate.  When
`send_video` returns — regardless of how many destinations succeeded, its
return value is ignored — `save_processed_video` commits the identifier. -/
def processSingleVideo (st : AppState) (fs : FS) (v : Video) (vid : Identifier)
    (env : ItemEnv) : StepResult :=
  match download fs env.raw with
  | (.error _, fs1) =>
    let caption := downloadFailureCaption v
    let r := sendText env.beh caption CHANNEL_IDS 3
    { st := st, fs := fs1,
      events := .fetchCall vid :: .sendTextCall vid caption :: r.2, aborted := false }
  | (.ok f, fs1) =>
    match sendVideoE env.beh DELETE_LOCAL_COPY (generateCaption v) f CHANNEL_IDS fs1 with
    | (.error .contentTooLarge, fs2, evs) =>
      { st := st, fs := handlePostingFailure fs2 f.name DELETE_LOCAL_COPY,
        events := .fetchCall vid :: .sendVideoCall vid :: evs, aborted := false }
    | (.error _, fs2, evs) =>
      { st := st, fs := fs2,
        events := .fetchCall vid :: .sendVideoCall vid :: evs, aborted := true }
    | (.ok _, fs2, evs) =>
      { st := saveProcessedVideo st vid env.appendOk, fs := fs2,
        events := .fetchCall vid :: .sendVideoCall vid :: evs, aborted := false }

/-- The `for video in videos` loop of `Application.process_videos` (main.py
lines 146-152): compute the identifier, skip (`continue`) when it is already
in the in-memory set, otherwise process the item; an exception escaping
`_process_single_video` is caught by the surrounding `except Exception`,
ending the sweep. -/
def processVideos (env : Video → ItemEnv) :
    AppState → FS → List Video → AppState × FS × List Event
  | st, fs, [] => (st, fs, [])
  | st, fs, v :: rest =>
    if videoId v ∈ st.processedVideos then processVideos env st fs rest
    else
      let r := processSingleVideo st fs v (videoId v) (env v)
      if r.aborted then (r.st, r.fs, r.events)
      else
        let r2 := processVideos env r.st r.fs rest
        (r2.1, r2.2.1, r.events ++ r2.2.2)

/-! Concrete inputs used by the per-claim counterexamples and witnesses. -/

/-- Candidate item `100_7` with a small, valid artifact. -/
def c1video : Video :=
  { ownerId := 100, vidNum := 7, title := pystr "Title", description := pystr "",
    url := pystr "https://vk.com/video100_7", dateStr := pystr "01.01.2025 00:00",
    views := 3 }

/-- Environment for C1: the download succeeds with a small mp4, every
Telegram send fails with a generic `TelegramAPIError`, the durable append
succeeds. -/
def c1env : ItemEnv :=
  { raw := .ok { name := pystr "video_100_7.mp4", ext := pystr "mp4", sizeBytes := 1000 },
    beh := fun _ _ => .apiError, appendOk := true }

/-- Candidate item `100_1` (already processed in the C2 witness sweep). -/
def c2video1 : Video :=
  { ownerId := 100, vidNum := 1, title := pystr "One", description := pystr "",
    url := pystr "https://vk.com/video100_1", dateStr := pystr "01.01.2025 00:00",
    views := 1 }

/-- Candidate item `100_2` (fresh in the C2 witness sweep). -/
def c2video2 : Video :=
  { ownerId := 100, vidNum := 2, title := pystr "Two", description := pystr "",
    url := pystr "https://vk.com/video100_2", dateStr := pystr "01.01.2025 00:00",
    views := 2 }

/-- Environment for the C2 witness: every download and send succeeds. -/
def c2env : Video → ItemEnv := fun _ =>
  { raw := .ok { name := pystr "video.mp4", ext := pystr "mp4", sizeBytes := 1 },
    beh := fun _ _ => .ok 1, appendOk := true }

/-- Ledger state for the C2 witness: `100_1` already processed. -/
def c2state : AppState :=
  { processedVideos := {pystr "100_1"}, ledgerFile := pystr "100_1\n" }

/-- Candidate item `100_8` whose artifact is oversized. -/
def c3video : Video :=
  { ownerId := 100, vidNum := 8, title := pystr "Big", description := pystr "",
    url := pystr "https://vk.com/video100_8", dateStr := pystr "01.01.2025 00:00",
    views := 8 }

/-- The oversized artifact of C3: 80 MB against the 50 MB limit. -/
def c3file : FileInfo :=
  { name := pystr "video_100_8.mp4", ext := pystr "mp4", sizeBytes := 80 * 1024 * 1024 }

/-- Environment for C3: yt-dlp produces the oversized file; the
failure-notice sends succeed; the append would succeed. -/
def c3env : ItemEnv :=
  { raw := .ok c3file, beh := fun _ _ => .ok 1, appendOk := true }

/-- C6 media counterexample behavior: the destination signals
`RetryAfter(2)` on the first attempt and would succeed on a second. -/
def c6mediaBeh : Channel → Nat → TgOutcome :=
  fun _ attempt => if attempt = 0 then .retryAfter 2 else .ok 5

/-- A small valid media file for C6. -/
def c6mediaFile : FileInfo :=
  { name := pystr "v.mp4", ext := pystr "mp4", sizeBytes := 1 }

/-- C6 text witness behavior: `RetryAfter(2)` twice, then success. -/
def c6textBeh : Channel → Nat → TgOutcome :=
  fun _ attempt =>
    if attempt = 0 then .retryAfter 2 else if attempt = 1 then .retryAfter 2 else .ok 9

/-- C7 witness behavior: the first destination fails with a network error,
the second succeeds. -/
def c7beh : Channel → Nat → TgOutcome :=
  fun ch _ => if ch = pystr "@your_channel1" then .networkError else .ok 4

/-- A small valid media file for the C7 witness. -/
def c7file : FileInfo :=
  { name := pystr "v7.mp4", ext := pystr "mp4", sizeBytes := 1 }

/-- A video with literal asterisks in title and description, for the C8
witness. -/
def c8video : Video :=
  { ownerId := 1, vidNum := 2, title := pystr "a*b", description := pystr "*d*",
    url := pystr "u", dateStr := pystr "02.02.2025 10:00", views := 5 }

/-- C10 witness behavior: every destination would succeed. -/
def c10beh : Channel → Nat → TgOutcome := fun _ _ => .ok 7

/-- A small valid media file for the C10 witness. -/
def c10file : FileInfo :=
  { name := pystr "v10.mp4", ext := pystr "mp4", sizeBytes := 1 }

/-! Helper lemmas about the ledger file round trip. -/

theorem unAux_append (l m : List Char) (h : '\r' ∉ l) :
    unAux false (l ++ m) = l ++ unAux false m := by
  induction l with
  | nil => rfl
  | cons c l ih =>
    rw [List.mem_cons, not_or] at h
    have hc : ¬ c = '\r' := fun e => h.1 e.symm
    simp only [List.cons_append, unAux, Bool.false_eq_true, and_false, if_false, hc,
      ite_false, List.append_eq]
    rw [ih h.2]

theorem universalNewlines_append (l m : List Char) (h : '\r' ∉ l) :
    universalNewlines (l ++ m) = l ++ universalNewlines m :=
  unAux_append l m h

theorem splitAux_append (l m : List Char) (h : ∀ c ∈ l, pythonLineBoundary c = false) :
    splitAux false (l ++ '\n' :: m) = l :: splitAux false m := by
  induction l with
  | nil =>
    have h1 : ¬ ('\n' : Char) = '\r' := by decide
    have h2 : isSplitBoundary '\n' = true := by decide
    simp [splitAux, h1, h2]
  | cons c l ih =>
    have hb : pythonLineBoundary c = false := h c (List.mem_cons_self c l)
    rw [pythonLineBoundary, Bool.or_eq_false_iff] at hb
    have hc : ¬ c = '\r' := of_decide_eq_false hb.1
    have hs : isSplitBoundary c = false := hb.2
    have ih' := ih fun x hx => h x (List.mem_cons_of_mem c hx)
    simp only [List.cons_append, splitAux, Bool.false_eq_true, and_false, if_false, hc,
      hs, ite_false, List.append_eq]
    rw [ih']

theorem splitlines_append (l m : List Char) (h : ∀ c ∈ l, pythonLineBoundary c = false) :
    splitlines (l ++ '\n' :: m) = l :: splitlines m :=
  splitAux_append l m h

theorem recordAll_ledgerFile (ids : List Identifier) (st : AppState) :
    (recordAll st ids).ledgerFile = st.ledgerFile ++ ledgerLines ids := by
  induction ids generalizing st with
  | nil => simp [recordAll, ledgerLines]
  | cons id ids ih =>
    have h0 : recordAll st (id :: ids) = recordAll (saveProcessedVideo st id true) ids := rfl
    rw [h0, ih]
    simp [saveProcessedVideo, ledgerLines, List.append_assoc]

theorem splitlines_ledgerLines (ids : List Identifier)
    (h : ∀ id ∈ ids, ∀ c ∈ id, pythonLineBoundary c = false) :
    splitlines (universalNewlines (ledgerLines ids)) = ids := by
  induction ids with
  | nil => rfl
  | cons id ids ih =>
    have hid : ∀ c ∈ id, pythonLineBoundary c = false := h id (List.mem_cons_self id ids)
    have hR : '\r' ∉ id := fun hm => absurd (hid '\r' hm) (by decide)
    have hRn : '\r' ∉ id ++ ['\n'] := by
      intro hm
      rcases List.mem_append.1 hm with h1 | h1
      · exact hR h1
      · simp at h1
    have e1 : universalNewlines (ledgerLines (id :: ids)) =
        id ++ '\n' :: universalNewlines (ledgerLines ids) := by
      have e0 := universalNewlines_append (id ++ ['\n']) (ledgerLines ids) hRn
      simpa [ledgerLines, List.append_assoc] using e0
    rw [e1, splitlines_append id _ hid, ih fun x hx => h x (List.mem_cons_of_mem id hx)]

/-- Claim C4 counterexample: with the durable append failing (the oracle
returns `false`, i.e. `open`/`write` raised), `save_processed_video` returns
without inserting the identifier into the in-memory set — the claim's
"nevertheless still inserted" is false on the code, where
`self.processed_videos.add` sits inside the `try` after the write. -/
theorem c4_io_error_memory_not_updated :
    pystr "100_1" ∉ (saveProcessedVideo initialState (pystr "100_1") false).processedVideos := by
  decide

/-- Claim C4 (amended): `save_processed_video` first appends the identifier
plus a newline to the durable file and then inserts it into the in-memory
set; if the durable append raises, the error is logged and not re-raised
(the call returns normally), but the in-memory insert is skipped too: the
state is returned entirely unchanged. -/
theorem c4_amended_save_semantics (st : AppState) (vid : Identifier) (appendOk : Bool) :
    (appendOk = true →
      (saveProcessedVideo st vid appendOk).ledgerFile = st.ledgerFile ++ vid ++ ['\n'] ∧
      (saveProcessedVideo st vid appendOk).processedVideos = insert vid st.processedVideos) ∧
    (appendOk = false → saveProcessedVideo st vid appendOk = st) := by
  constructor
  · intro h; subst h; simp [saveProcessedVideo]
  · intro h; subst h; simp [saveProcessedVideo]

/-- Witness for C4 (amended) at a concrete failing append. -/
theorem c4_amended_save_semantics_witness :
    saveProcessedVideo initialState (pystr "100_1") false = initialState :=
  (c4_amended_save_semantics initialState (pystr "100_1") false).2 rfl

/-- Claim C5 counterexample: the identifier `"a\rb"` contains no newline,
yet recording it and reloading does not reconstruct the set of the recorded
identifiers: the text-mode read applies universal newlines, so the ledger
content `"a\rb\n"` is read back as `"a\nb\n"` and `splitlines` yields
`{"a", "b"}`. -/
theorem c5_carriage_return_breaks_roundtrip :
    (∀ id ∈ [pystr "a\rb"], '\n' ∉ id) ∧
    loadProcessedVideos (recordAll initialState [pystr "a\rb"]).ledgerFile ≠
      ([pystr "a\rb"] : List Identifier).toFinset := by
  decide

/-- Claim C5 (amended): for every list of identifiers none of which contains
a character Python treats as a line boundary — newline, carriage return,
vertical tab, form feed, the FS/GS/RS separators, NEL, LINE SEPARATOR,
PARAGRAPH SEPARATOR — recording each of them to the ledger file and
reloading via `load_processed_videos` reconstructs exactly the set of those
identifiers, duplicates collapsed. -/
theorem c5_amended_roundtrip (ids : List Identifier)
    (h : ∀ id ∈ ids, ∀ c ∈ id, pythonLineBoundary c = false) :
    loadProcessedVideos (recordAll initialState ids).ledgerFile = ids.toFinset := by
  rw [recordAll_ledgerFile]
  show loadProcessedVideos ([] ++ ledgerLines ids) = ids.toFinset
  rw [List.nil_append, loadProcessedVideos, splitlines_ledgerLines ids h]

/-- Witness for C5 (amended): three recorded identifiers, one duplicated,
reload to the two-element set. -/
theorem c5_amended_roundtrip_witness :
    loadProcessedVideos
        (recordAll initialState [pystr "100_1", pystr "100_2", pystr "100_1"]).ledgerFile =
      ([pystr "100_1", pystr "100_2", pystr "100_1"] : List Identifier).toFinset :=
  c5_amended_roundtrip [pystr "100_1", pystr "100_2", pystr "100_1"] (by decide)

/-! Helper lemmas: the poster functions emit only untagged channel-level
events, and the pipeline only grows the in-memory ledger set. -/


theorem sendTextAttempts_tag (beh : Channel → Nat → TgOutcome) (payload : PyStr)
    (ch : Channel) :
    ∀ (fuel attempt : Nat), ∀ e ∈ (sendTextAttempts beh payload ch attempt fuel).2,
      e.tag = none := by
  intro fuel
  induction fuel with
  | zero => intro attempt e he; simp [sendTextAttempts] at he
  | succ n ih =>
    intro attempt e he
    rcases hb : beh ch attempt with m | t | _ | _ | _ <;>
      simp only [sendTextAttempts, hb, List.mem_cons, List.not_mem_nil, or_false] at he
    · rcases he with rfl | rfl <;> rfl
    · rcases he with rfl | rfl | he
      · rfl
      · rfl
      · exact ih (attempt + 1) e he
    · subst he; rfl
    · subst he; rfl
    · rcases he with rfl | he
      · rfl
      · exact ih (attempt + 1) e he

theorem sendText_tag (beh : Channel → Nat → TgOutcome) (message : PyStr) :
    ∀ (channels : List Channel) (retries : Nat),
      ∀ e ∈ (sendText beh message channels retries).2, e.tag = none := by
  intro channels
  induction channels with
  | nil => intro retries e he; simp [sendText] at he
  | cons ch rest ih =>
    intro retries e he
    rcases h1 : (sendTextAttempts beh (truncateText message MAX_CAPTION_LENGTH)
        ch 0 retries).1 with _ | m <;>
      simp only [sendText, h1, List.mem_append] at he <;>
      rcases he with h2 | h2
    · exact sendTextAttempts_tag beh _ ch retries 0 e h2
    · exact ih retries e h2
    · exact sendTextAttempts_tag beh _ ch retries 0 e h2
    · exact ih retries e h2

theorem sendVideoLoop_tag (beh : Channel → Nat → TgOutcome) (deleteFlag : Bool)
    (f : FileInfo) (payload : PyStr) :
    ∀ (channels : List Channel) (fs : FS),
      ∀ e ∈ (sendVideoLoop beh deleteFlag f payload channels fs).2.2, e.tag = none := by
  intro channels
  induction channels with
  | nil => intro fs e he; simp [sendVideoLoop] at he
  | cons ch rest ih =>
    intro fs e he
    by_cases hmem : f.name ∈ fs.files
    · rcases hb : beh ch 0 with m | t | _ | _ | _ <;>
        simp only [sendVideoLoop, hmem, if_true, ite_true, hb, List.mem_cons] at he
      · rcases hdel : deleteFlag
        · subst hdel
          simp only [Bool.false_eq_true, if_false, ite_false, List.mem_cons] at he
          rcases he with rfl | rfl | he
          · rfl
          · rfl
          · exact ih _ e he
        · subst hdel
          simp only [if_true, ite_true, List.mem_cons] at he
          rcases he with rfl | rfl | rfl | he
          · rfl
          · rfl
          · rfl
          · exact ih _ e he
      · rcases he with rfl | he
        · rfl
        · exact ih _ e he
      · rcases he with rfl | he
        · rfl
        · exact ih _ e he
      · rcases he with rfl | he
        · rfl
        · exact ih _ e he
      · rcases he with rfl | he
        · rfl
        · exact ih _ e he
    · simp only [sendVideoLoop, hmem, if_false, ite_false, List.mem_cons] at he
      rcases he with rfl | he
      · rfl
      · exact ih _ e he

theorem sendVideoE_tag (beh : Channel → Nat → TgOutcome) (deleteFlag : Bool)
    (caption : PyStr) (f : FileInfo) (channels : List Channel) (fs : FS) :
    ∀ e ∈ (sendVideoE beh deleteFlag caption f channels fs).2.2, e.tag = none := by
  intro e he
  rcases hv : validateVideo fs f with _ | err <;>
    simp only [sendVideoE, hv] at he
  · exact sendVideoLoop_tag beh deleteFlag f _ channels fs e he
  · simp at he

theorem processSingleVideo_tag (st : AppState) (fs : FS) (v : Video) (vid : Identifier)
    (env : ItemEnv) :
    ∀ e ∈ (processSingleVideo st fs v vid env).events, e.tag = none ∨ e.tag = some vid := by
  intro e he
  rcases hd : download fs env.raw with ⟨res, fs1⟩
  rcases res with err | f
  · simp only [processSingleVideo, hd, List.mem_cons] at he
    rcases he with rfl | rfl | he
    · right; rfl
    · right; rfl
    · left; exact sendText_tag env.beh _ CHANNEL_IDS 3 e he
  · rcases hs : sendVideoE env.beh DELETE_LOCAL_COPY (generateCaption v) f CHANNEL_IDS fs1
      with ⟨res2, fs2, evs⟩
    have hevs : evs = (sendVideoE env.beh DELETE_LOCAL_COPY (generateCaption v) f
        CHANNEL_IDS fs1).2.2 := by rw [hs]
    have htail : ∀ e ∈ evs, Event.tag e = none := by
      intro x hx
      rw [hevs] at hx
      exact sendVideoE_tag env.beh _ _ f CHANNEL_IDS fs1 x hx
    rcases res2 with err2 | rs
    · rcases err2 <;> simp only [processSingleVideo, hd, hs, List.mem_cons] at he <;>
        [skip; skip; skip] <;> rcases he with rfl | rfl | he
      · right; rfl
      · right; rfl
      · left; exact htail e he
      · right; rfl
      · right; rfl
      · left; exact htail e he
      · right; rfl
      · right; rfl
      · left; exact htail e he
    · simp only [processSingleVideo, hd, hs, List.mem_cons] at he
      rcases he with rfl | rfl | he
      · right; rfl
      · right; rfl
      · left; exact htail e he

theorem saveProcessedVideo_mono (st : AppState) (vid : Identifier) (appendOk : Bool) :
    st.processedVideos ⊆ (saveProcessedVideo st vid appendOk).processedVideos := by
  rcases appendOk
  · exact Finset.Subset.refl _
  · exact Finset.subset_insert _ _

theorem processSingleVideo_mono (st : AppState) (fs : FS) (v : Video) (vid : Identifier)
    (env : ItemEnv) :
    st.processedVideos ⊆ (processSingleVideo st fs v vid env).st.processedVideos := by
  rcases hd : download fs env.raw with ⟨res, fs1⟩
  rcases res with err | f
  · simp only [processSingleVideo, hd]; exact Finset.Subset.refl _
  · rcases hs : sendVideoE env.beh DELETE_LOCAL_COPY (generateCaption v) f CHANNEL_IDS fs1
      with ⟨res2, fs2, evs⟩
    rcases res2 with err2 | rs
    · rcases err2 <;> simp only [processSingleVideo, hd, hs] <;> exact Finset.Subset.refl _
    · simp only [processSingleVideo, hd, hs]
      exact saveProcessedVideo_mono st vid env.appendOk

/-- Claim C2: for every identifier `i` already present in the in-memory
ledger set at the start of a sweep, the sweep loop of `process_videos` never
invokes the fetch operation or either publish operation for `i`: the
candidate whose identifier equals `i` is skipped by the `continue` before
any download or send, whatever the other items do. -/
theorem c2_ledger_members_never_fetched_or_published (env : Video → ItemEnv)
    (i : Identifier) :
    ∀ (videos : List Video) (st : AppState) (fs : FS), i ∈ st.processedVideos →
      ∀ e ∈ (processVideos env st fs videos).2.2, e.tag ≠ some i := by
  intro videos
  induction videos with
  | nil => intro st fs hi e he; simp [processVideos] at he
  | cons v rest ih =>
    intro st fs hi e he
    by_cases hmem : videoId v ∈ st.processedVideos
    · simp only [processVideos, hmem, if_true, ite_true] at he
      exact ih st fs hi e he
    · have hne : videoId v ≠ i := fun hvi => hmem (hvi ▸ hi)
      have hleft : ∀ x ∈ (processSingleVideo st fs v (videoId v) (env v)).events,
          Event.tag x ≠ some i := by
        intro x hx heq
        rcases processSingleVideo_tag st fs v (videoId v) (env v) x hx with h0 | h0
        · rw [h0] at heq; exact Option.noConfusion heq
        · rw [h0] at heq; exact hne (Option.some.inj heq)
      simp only [processVideos, hmem, if_false, ite_false] at he
      rcases hab : (processSingleVideo st fs v (videoId v) (env v)).aborted
      · simp only [hab, Bool.false_eq_true, if_false, ite_false, List.mem_append] at he
        rcases he with he | he
        · exact hleft e he
        · exact ih _ _ (processSingleVideo_mono st fs v (videoId v) (env v) hi) e he
      · simp only [hab, if_true, ite_true] at he
        exact hleft e he

/-- Witness for C2: a sweep over items `100_1` and `100_2` with `100_1`
already in the ledger performs no fetch call for `100_1`. -/
theorem c2_ledger_members_never_fetched_or_published_witness :
    Event.fetchCall (pystr "100_1") ∉
      (processVideos c2env c2state ⟨∅⟩ [c2video1, c2video2]).2.2 :=
  fun hmem =>
    c2_ledger_members_never_fetched_or_published c2env (pystr "100_1")
      [c2video1, c2video2] c2state ⟨∅⟩ (by decide) _ hmem rfl

/-- Claim C1 (code behavior at the failing input): item `100_7` downloads
fine, every destination's send fails with a `TelegramAPIError`, so nothing
is delivered — yet `send_video` swallows the per-destination errors, returns
normally, and `_process_single_video` commits the identifier to both the
durable ledger file and the in-memory set.  The claim requires the
identifier to be absent when publishing fails for all destinations. -/
theorem c1_all_destinations_fail_still_commits :
    (∀ e ∈ (processSingleVideo initialState ⟨∅⟩ c1video (videoId c1video) c1env).events,
      e.isSent = false) ∧
    (processSingleVideo initialState ⟨∅⟩ c1video (videoId c1video)
        c1env).st.processedVideos = {videoId c1video} ∧
    (processSingleVideo initialState ⟨∅⟩ c1video (videoId c1video) c1env).st.ledgerFile =
      pystr "100_7\n" := by
  decide

/-- Claim C3 (code behavior at the failing input): item `100_8` produces an
80 MB artifact against the 50 MB limit.  `VideoSizeExceededError` is caught
by `download`'s own generic `except Exception` branch, which re-raises
`VideoDownloadError` without unlinking, so the artifact stays in the
download directory; the caption-only failure notice naming the item is
published to both destinations and the identifier is never added to the
Ledger.  The claim additionally requires the artifact to be deleted, which
the code does not do. -/
theorem c3_oversize_artifact_retained_not_deleted :
    (processSingleVideo initialState ⟨∅⟩ c3video (videoId c3video) c3env).fs.files =
      {pystr "video_100_8.mp4"} ∧
    Event.sendTextCall (videoId c3video) (downloadFailureCaption c3video) ∈
      (processSingleVideo initialState ⟨∅⟩ c3video (videoId c3video) c3env).events ∧
    Event.sent (pystr "@your_channel1") 1
        (truncateText (downloadFailureCaption c3video) MAX_CAPTION_LENGTH) ∈
      (processSingleVideo initialState ⟨∅⟩ c3video (videoId c3video) c3env).events ∧
    Event.sent (pystr "@your_channel2") 1
        (truncateText (downloadFailureCaption c3video) MAX_CAPTION_LENGTH) ∈
      (processSingleVideo initialState ⟨∅⟩ c3video (videoId c3video) c3env).events ∧
    (processSingleVideo initialState ⟨∅⟩ c3video (videoId c3video)
        c3env).st.processedVideos = ∅ ∧
    (processSingleVideo initialState ⟨∅⟩ c3video (videoId c3video) c3env).st.ledgerFile =
      [] := by
  decide

/-! Helper lemmas: receipts are exactly the delivery events of the trace. -/

theorem sentReceipts_nil : sentReceipts [] = [] := rfl

theorem sentReceipts_attempt (ch : Channel) (evs : List Event) :
    sentReceipts (Event.attempt ch :: evs) = sentReceipts evs := rfl

theorem sentReceipts_sent (ch : Channel) (m : Nat) (p : PyStr) (evs : List Event) :
    sentReceipts (Event.sent ch m p :: evs) = (ch, m) :: sentReceipts evs := rfl

theorem sentReceipts_deleteFile (n : PyStr) (evs : List Event) :
    sentReceipts (Event.deleteFile n :: evs) = sentReceipts evs := rfl

theorem sentReceipts_sleep (t : Nat) (evs : List Event) :
    sentReceipts (Event.sleep t :: evs) = sentReceipts evs := rfl

theorem sentReceipts_append (l1 l2 : List Event) :
    sentReceipts (l1 ++ l2) = sentReceipts l1 ++ sentReceipts l2 :=
  List.filterMap_append _ _ _

theorem sendVideoLoop_receipts (beh : Channel → Nat → TgOutcome) (deleteFlag : Bool)
    (f : FileInfo) (payload : PyStr) :
    ∀ (channels : List Channel) (fs : FS),
      (sendVideoLoop beh deleteFlag f payload channels fs).1 =
        sentReceipts (sendVideoLoop beh deleteFlag f payload channels fs).2.2 := by
  intro channels
  induction channels with
  | nil => intro fs; rfl
  | cons ch rest ih =>
    intro fs
    by_cases hmem : f.name ∈ fs.files
    · rcases hb : beh ch 0 with m | t | _ | _ | _ <;>
        simp only [sendVideoLoop, hmem, if_true, ite_true, hb, sentReceipts_attempt]
      · rw [sentReceipts_sent, apply_ite sentReceipts, sentReceipts_deleteFile, ite_self,
          ih]
      · exact ih _
      · exact ih _
      · exact ih _
      · exact ih _
    · simp only [sendVideoLoop, hmem, if_false, ite_false, sentReceipts_attempt]
      exact ih _

theorem sendTextAttempts_receipts (beh : Channel → Nat → TgOutcome) (payload : PyStr)
    (ch : Channel) :
    ∀ (fuel attempt : Nat),
      sentReceipts (sendTextAttempts beh payload ch attempt fuel).2 =
        ((sendTextAttempts beh payload ch attempt fuel).1.map fun m => (ch, m)).toList := by
  intro fuel
  induction fuel with
  | zero => intro attempt; rfl
  | succ n ih =>
    intro attempt
    rcases hb : beh ch attempt with m | t | _ | _ | _ <;>
      simp only [sendTextAttempts, hb, sentReceipts_attempt, sentReceipts_sent,
        sentReceipts_sleep, sentReceipts_nil]
    · rfl
    · exact ih (attempt + 1)
    · rfl
    · rfl
    · exact ih (attempt + 1)

theorem sendText_receipts (beh : Channel → Nat → TgOutcome) (message : PyStr) :
    ∀ (channels : List Channel) (retries : Nat),
      (sendText beh message channels retries).1 =
        sentReceipts (sendText beh message channels retries).2 := by
  intro channels
  induction channels with
  | nil => intro retries; rfl
  | cons ch rest ih =>
    intro retries
    have h2 := sendTextAttempts_receipts beh (truncateText message MAX_CAPTION_LENGTH)
      ch retries 0
    rcases h1 : (sendTextAttempts beh (truncateText message MAX_CAPTION_LENGTH)
        ch 0 retries).1 with _ | m <;>
      rw [h1] at h2 <;> simp at h2 <;>
      simp only [sendText, h1, sentReceipts_append, h2]
    · rw [List.nil_append]
      exact ih retries
    · rw [List.singleton_append, ih retries]

theorem sendVideoLoop_no_sleep (beh : Channel → Nat → TgOutcome) (deleteFlag : Bool)
    (f : FileInfo) (payload : PyStr) :
    ∀ (channels : List Channel) (fs : FS) (t : Nat),
      Event.sleep t ∉ (sendVideoLoop beh deleteFlag f payload channels fs).2.2 := by
  intro channels
  induction channels with
  | nil => intro fs t h; simp [sendVideoLoop] at h
  | cons ch rest ih =>
    intro fs t h
    by_cases hmem : f.name ∈ fs.files
    · rcases hb : beh ch 0 with m | t2 | _ | _ | _
      · rcases hdel : deleteFlag <;> subst hdel <;>
          simp [sendVideoLoop, hmem, hb] at h <;> exact ih _ t h
      · simp [sendVideoLoop, hmem, hb] at h; exact ih _ t h
      · simp [sendVideoLoop, hmem, hb] at h; exact ih _ t h
      · simp [sendVideoLoop, hmem, hb] at h; exact ih _ t h
      · simp [sendVideoLoop, hmem, hb] at h; exact ih _ t h
    · simp [sendVideoLoop, hmem] at h; exact ih _ t h

theorem sendVideoLoop_absent (beh : Channel → Nat → TgOutcome) (deleteFlag : Bool)
    (f : FileInfo) (payload : PyStr) :
    ∀ (channels : List Channel) (fs : FS), f.name ∉ fs.files →
      sendVideoLoop beh deleteFlag f payload channels fs =
        ([], fs, channels.map Event.attempt) := by
  intro channels
  induction channels with
  | nil => intro fs h; rfl
  | cons ch rest ih =>
    intro fs h
    simp only [sendVideoLoop, h, if_false, ite_false, List.map_cons]
    rw [ih fs h]

/-- Claim C6 counterexample: a media destination that signals
`RetryAfter(2)` on its first attempt and would succeed on a second is not
delivered by `send_video`: the per-channel loop catches the rate-limit
signal with its generic `except Exception`, performs no sleep and no second
attempt (its `retries` parameter is unused), and moves on. -/
theorem c6_media_rate_limit_not_retried :
    c6mediaBeh (pystr "@your_channel1") 0 = .retryAfter 2 ∧
    c6mediaBeh (pystr "@your_channel1") 1 = .ok 5 ∧
    (sendVideoE c6mediaBeh DELETE_LOCAL_COPY (pystr "cap") c6mediaFile
        [pystr "@your_channel1"] ⟨{pystr "v.mp4"}⟩).2.2 =
      [Event.attempt (pystr "@your_channel1")] ∧
    sentReceipts ((sendVideoE c6mediaBeh DELETE_LOCAL_COPY (pystr "cap") c6mediaFile
        [pystr "@your_channel1"] ⟨{pystr "v.mp4"}⟩).2.2) = [] := by
  refine ⟨rfl, rfl, ?_, ?_⟩ <;> rfl

/-- Claim C6 (amended): the rate-limit retry policy applies to the text
publish operation only.  For `send_text`, a `RetryAfter(t)` causes a sleep
of exactly `t` followed by a retry of the same destination, up to the retry
ceiling (default 3); a destination signalling `RetryAfter` twice and then
succeeding is delivered on the third attempt with exactly the two suggested
sleeps.  For `send_video`, a rate-limit signal is treated like any other
send error: the per-channel loop never sleeps, makes no second attempt, and
the rate-limited destination gets no receipt. -/
theorem c6_amended_retry_policy (beh : Channel → Nat → TgOutcome) (payload : PyStr)
    (ch : Channel) (t0 t1 m : Nat) :
    (beh ch 0 = .retryAfter t0 → beh ch 1 = .retryAfter t1 → beh ch 2 = .ok m →
      sendTextAttempts beh payload ch 0 3 =
        (some m, [.attempt ch, .sleep t0, .attempt ch, .sleep t1, .attempt ch,
          .sent ch m payload])) ∧
    (∀ (attempt fuel t : Nat), beh ch attempt = .retryAfter t →
      sendTextAttempts beh payload ch attempt (fuel + 1) =
        ((sendTextAttempts beh payload ch (attempt + 1) fuel).1,
          .attempt ch :: .sleep t :: (sendTextAttempts beh payload ch (attempt + 1) fuel).2)) ∧
    (∀ (deleteFlag : Bool) (f : FileInfo) (channels : List Channel) (fs : FS) (t : Nat),
      Event.sleep t ∉ (sendVideoLoop beh deleteFlag f payload channels fs).2.2) ∧
    (∀ (deleteFlag : Bool) (f : FileInfo) (fs : FS) (t : Nat),
      beh ch 0 = .retryAfter t →
      (sendVideoLoop beh deleteFlag f payload [ch] fs).1 = []) := by
  refine ⟨?_, ?_, ?_, ?_⟩
  · intro h0 h1 h2
    simp only [sendTextAttempts, h0, h1, h2]
  · intro attempt fuel t hstep
    simp only [sendTextAttempts, hstep]
  · intro deleteFlag f channels fs t
    exact sendVideoLoop_no_sleep beh deleteFlag f payload channels fs t
  · intro deleteFlag f fs t hrl
    by_cases hmem : f.name ∈ fs.files <;>
      simp [sendVideoLoop, hmem, hrl]

/-- Witness for C6 (amended): with `RetryAfter(2)` twice then success, the
text attempt loop delivers on the third attempt after sleeping 2 and 2. -/
theorem c6_amended_retry_policy_witness :
    sendTextAttempts c6textBeh (pystr "x") (pystr "@your_channel1") 0 3 =
      (some 9, [.attempt (pystr "@your_channel1"), .sleep 2,
        .attempt (pystr "@your_channel1"), .sleep 2,
        .attempt (pystr "@your_channel1"),
        .sent (pystr "@your_channel1") 9 (pystr "x")]) :=
  (c6_amended_retry_policy c6textBeh (pystr "x") (pystr "@your_channel1") 2 2 9).1
    rfl rfl rfl

/-- Claim C7: neither publish operation raises because a single destination
failed.  With a valid, present artifact, `send_video` returns normally
(`Except.ok`) whatever each destination does, and both operations return
exactly the receipts of the destinations whose send succeeded (the delivery
events of their traces); a destination's failure is absorbed inside the
per-destination loop. -/
theorem c7_publish_never_raises (beh : Channel → Nat → TgOutcome) (deleteFlag : Bool)
    (caption message : PyStr) (f : FileInfo) (channels textChannels : List Channel)
    (fs : FS) (retries : Nat)
    (hmem : f.name ∈ fs.files)
    (hext : f.ext ∈ SUPPORTED_VIDEO_FORMATS)
    (hsize : f.sizeBytes ≤ MAX_FILE_SIZE_MB * 1024 * 1024) :
    (sendVideoE beh deleteFlag caption f channels fs).1 =
      Except.ok (sentReceipts (sendVideoE beh deleteFlag caption f channels fs).2.2) ∧
    (sendText beh message textChannels retries).1 =
      sentReceipts (sendText beh message textChannels retries).2 := by
  have hv : validateVideo fs f = none := by
    rw [validateVideo, if_neg (not_not_intro hmem), if_neg (not_not_intro hext),
      if_neg (Nat.not_lt.mpr hsize)]
  constructor
  · simp only [sendVideoE, hv]
    rw [sendVideoLoop_receipts]
  · exact sendText_receipts beh message textChannels retries

/-- Witness for C7: one destination fails with a network error, the other
succeeds; both calls return normally with the single successful receipt. -/
theorem c7_publish_never_raises_witness :
    (sendVideoE c7beh DELETE_LOCAL_COPY (pystr "cap") c7file CHANNEL_IDS
        ⟨{pystr "v7.mp4"}⟩).1 =
      Except.ok (sentReceipts (sendVideoE c7beh DELETE_LOCAL_COPY (pystr "cap") c7file
        CHANNEL_IDS ⟨{pystr "v7.mp4"}⟩).2.2) ∧
    (sendText c7beh (pystr "msg") CHANNEL_IDS 3).1 =
      sentReceipts (sendText c7beh (pystr "msg") CHANNEL_IDS 3).2 :=
  c7_publish_never_raises c7beh DELETE_LOCAL_COPY (pystr "cap") (pystr "msg") c7file
    CHANNEL_IDS CHANNEL_IDS ⟨{pystr "v7.mp4"}⟩ 3 (Finset.mem_singleton_self _)
    (by decide) (by decide)

/-- Claim C10: with deletion enabled and at least one further destination,
`send_video` deletes the artifact immediately after the first destination
succeeds — the delete event precedes every remaining attempt — and every
destination after the first fails to open the now-missing file, so only the
first destination receives the media: the receipts are exactly the first
destination's. -/
theorem c10_delete_after_first_success (beh : Channel → Nat → TgOutcome) (caption : PyStr)
    (f : FileInfo) (c1 : Channel) (rest : List Channel) (m : Nat) (fs : FS)
    (hmem : f.name ∈ fs.files)
    (hext : f.ext ∈ SUPPORTED_VIDEO_FORMATS)
    (hsize : f.sizeBytes ≤ MAX_FILE_SIZE_MB * 1024 * 1024)
    (hok : beh c1 0 = .ok m) :
    (sendVideoE beh true caption f (c1 :: rest) fs).1 = Except.ok [(c1, m)] ∧
    f.name ∉ (sendVideoE beh true caption f (c1 :: rest) fs).2.1.files ∧
    (sendVideoE beh true caption f (c1 :: rest) fs).2.2 =
      Event.attempt c1 :: Event.sent c1 m (truncateText caption MAX_CAPTION_LENGTH) ::
        Event.deleteFile f.name :: rest.map Event.attempt := by
  have hv : validateVideo fs f = none := by
    rw [validateVideo, if_neg (not_not_intro hmem), if_neg (not_not_intro hext),
      if_neg (Nat.not_lt.mpr hsize)]
  have habs : f.name ∉ (fs.removeFile f.name).files := Finset.not_mem_erase _ _
  have hloop : sendVideoLoop beh true f (truncateText caption MAX_CAPTION_LENGTH)
      (c1 :: rest) fs =
      ([(c1, m)], fs.removeFile f.name,
        Event.attempt c1 :: Event.sent c1 m (truncateText caption MAX_CAPTION_LENGTH) ::
          Event.deleteFile f.name :: rest.map Event.attempt) := by
    simp only [sendVideoLoop, hmem, if_true, ite_true, hok]
    rw [sendVideoLoop_absent beh true f _ rest (fs.removeFile f.name) habs]
  refine ⟨?_, ?_, ?_⟩ <;> simp only [sendVideoE, hv, hloop]
  · exact habs

/-- Witness for C10: with both configured destinations and the first
succeeding, the file is deleted right after the first delivery and the
second destination is only attempted, never served. -/
theorem c10_delete_after_first_success_witness :
    (sendVideoE c10beh true (pystr "cap") c10file CHANNEL_IDS ⟨{pystr "v10.mp4"}⟩).1 =
      Except.ok [(pystr "@your_channel1", 7)] ∧
    pystr "v10.mp4" ∉
      (sendVideoE c10beh true (pystr "cap") c10file CHANNEL_IDS
        ⟨{pystr "v10.mp4"}⟩).2.1.files ∧
    (sendVideoE c10beh true (pystr "cap") c10file CHANNEL_IDS ⟨{pystr "v10.mp4"}⟩).2.2 =
      Event.attempt (pystr "@your_channel1") ::
        Event.sent (pystr "@your_channel1") 7
          (truncateText (pystr "cap") MAX_CAPTION_LENGTH) ::
        Event.deleteFile (pystr "v10.mp4") ::
        [pystr "@your_channel2"].map Event.attempt :=
  c10_delete_after_first_success c10beh (pystr "cap") c10file (pystr "@your_channel1")
    [pystr "@your_channel2"] 7 ⟨{pystr "v10.mp4"}⟩ (Finset.mem_singleton_self _)
    (by decide) (by decide) rfl


/-! Helper lemmas: every delivered payload is the truncated message. -/

theorem sendTextAttempts_payload (beh : Channel → Nat → TgOutcome) (payload : PyStr)
    (ch : Channel) :
    ∀ (fuel attempt : Nat) (ch2 : Channel) (mId : Nat) (p : PyStr),
      Event.sent ch2 mId p ∈ (sendTextAttempts beh payload ch attempt fuel).2 →
        p = payload := by
  intro fuel
  induction fuel with
  | zero => intro attempt ch2 mId p h; simp [sendTextAttempts] at h
  | succ n ih =>
    intro attempt ch2 mId p h
    rcases hb : beh ch attempt with m | t | _ | _ | _
    · simp [sendTextAttempts, hb] at h
      exact h.2.2
    · simp [sendTextAttempts, hb] at h
      exact ih (attempt + 1) ch2 mId p h
    · simp [sendTextAttempts, hb] at h
    · simp [sendTextAttempts, hb] at h
    · simp [sendTextAttempts, hb] at h
      exact ih (attempt + 1) ch2 mId p h

theorem sendText_payload (beh : Channel → Nat → TgOutcome) (message : PyStr) :
    ∀ (channels : List Channel) (retries : Nat) (ch2 : Channel) (mId : Nat) (p : PyStr),
      Event.sent ch2 mId p ∈ (sendText beh message channels retries).2 →
        p = truncateText message MAX_CAPTION_LENGTH := by
  intro channels
  induction channels with
  | nil => intro retries ch2 mId p h; simp [sendText] at h
  | cons ch rest ih =>
    intro retries ch2 mId p h
    rcases h1 : (sendTextAttempts beh (truncateText message MAX_CAPTION_LENGTH)
        ch 0 retries).1 with _ | m <;>
      simp only [sendText, h1, List.mem_append] at h <;>
      rcases h with h | h
    · exact sendTextAttempts_payload beh _ ch retries 0 ch2 mId p h
    · exact ih retries ch2 mId p h
    · exact sendTextAttempts_payload beh _ ch retries 0 ch2 mId p h
    · exact ih retries ch2 mId p h

theorem sendVideoLoop_payload (beh : Channel → Nat → TgOutcome) (deleteFlag : Bool)
    (f : FileInfo) (payload : PyStr) :
    ∀ (channels : List Channel) (fs : FS) (ch2 : Channel) (mId : Nat) (p : PyStr),
      Event.sent ch2 mId p ∈ (sendVideoLoop beh deleteFlag f payload channels fs).2.2 →
        p = payload := by
  intro channels
  induction channels with
  | nil => intro fs ch2 mId p h; simp [sendVideoLoop] at h
  | cons ch rest ih =>
    intro fs ch2 mId p h
    by_cases hmem : f.name ∈ fs.files
    · rcases hb : beh ch 0 with m | t | _ | _ | _
      · rcases hdel : deleteFlag <;> subst hdel <;>
          simp [sendVideoLoop, hmem, hb] at h <;>
          rcases h with h | h
        · exact h.2.2
        · exact ih _ ch2 mId p h
        · exact h.2.2
        · exact ih _ ch2 mId p h
      · simp [sendVideoLoop, hmem, hb] at h; exact ih _ ch2 mId p h
      · simp [sendVideoLoop, hmem, hb] at h; exact ih _ ch2 mId p h
      · simp [sendVideoLoop, hmem, hb] at h; exact ih _ ch2 mId p h
      · simp [sendVideoLoop, hmem, hb] at h; exact ih _ ch2 mId p h
    · simp [sendVideoLoop, hmem] at h; exact ih _ ch2 mId p h

theorem sendVideoE_payload (beh : Channel → Nat → TgOutcome) (deleteFlag : Bool)
    (caption : PyStr) (f : FileInfo) (channels : List Channel) (fs : FS) :
    ∀ (ch2 : Channel) (mId : Nat) (p : PyStr),
      Event.sent ch2 mId p ∈ (sendVideoE beh deleteFlag caption f channels fs).2.2 →
        p = truncateText caption MAX_CAPTION_LENGTH := by
  intro ch2 mId p h
  rcases hv : validateVideo fs f with _ | err <;> simp only [sendVideoE, hv] at h
  · exact sendVideoLoop_payload beh deleteFlag f _ channels fs ch2 mId p h
  · simp at h

theorem truncateText_length (text : PyStr) :
    (truncateText text MAX_CAPTION_LENGTH).length ≤ MAX_CAPTION_LENGTH := by
  rw [truncateText]
  by_cases h : text.length > MAX_CAPTION_LENGTH
  · rw [if_pos h, List.length_append, List.length_take]
    have h3 : (pystr "...").length = 3 := rfl
    rw [h3]
    simp only [MAX_CAPTION_LENGTH] at *
    omega
  · rw [if_neg h]
    simp only [MAX_CAPTION_LENGTH] at *
    omega

theorem replaceStar_no_star (s : PyStr) : '*' ∉ replaceStar s := by
  intro hm
  rw [replaceStar] at hm
  rcases List.mem_map.1 hm with ⟨a, _, ha⟩
  by_cases h : a = '*'
  · rw [if_pos h] at ha; exact absurd ha (by decide)
  · rw [if_neg h] at ha; exact h ha

/-- Claim C8: the caption embeds the title and the description with every
literal asterisk replaced by the substitute `'★'` (the substituted strings
contain no `'*'` and occur verbatim inside the caption), and the text
actually sent to a destination never exceeds the 1024-character caption
limit: a text at or under the limit is sent unchanged, a longer one is
truncated to `1024 - 3` characters followed by `"..."` — in particular every
delivered payload of both publish operations has length at most 1024. -/
theorem c8_caption_escaping_truncation (v : Video) (text : PyStr) :
    (replaceStar v.title).IsInfix (generateCaption v) ∧
    (replaceStar v.description).IsInfix (generateCaption v) ∧
    '*' ∉ replaceStar v.title ∧
    '*' ∉ replaceStar v.description ∧
    (text.length ≤ MAX_CAPTION_LENGTH → truncateText text MAX_CAPTION_LENGTH = text) ∧
    (text.length > MAX_CAPTION_LENGTH →
      truncateText text MAX_CAPTION_LENGTH =
        text.take (MAX_CAPTION_LENGTH - 3) ++ pystr "...") ∧
    (truncateText text MAX_CAPTION_LENGTH).length ≤ MAX_CAPTION_LENGTH ∧
    (∀ (beh : Channel → Nat → TgOutcome) (message : PyStr) (channels : List Channel)
        (retries : Nat) (ch : Channel) (mId : Nat) (p : PyStr),
      Event.sent ch mId p ∈ (sendText beh message channels retries).2 →
        p.length ≤ MAX_CAPTION_LENGTH) ∧
    (∀ (beh : Channel → Nat → TgOutcome) (deleteFlag : Bool) (caption : PyStr)
        (f : FileInfo) (channels : List Channel) (fs : FS) (ch : Channel) (mId : Nat)
        (p : PyStr),
      Event.sent ch mId p ∈ (sendVideoE beh deleteFlag caption f channels fs).2.2 →
        p.length ≤ MAX_CAPTION_LENGTH) := by
  refine ⟨?_, ?_, replaceStar_no_star v.title, replaceStar_no_star v.description, ?_, ?_,
    truncateText_length text, ?_, ?_⟩
  · exact ⟨pystr "*", pystr "*\n\n" ++ replaceStar v.description ++ pystr "\n\n📅 " ++
      v.dateStr ++ pystr " | 👀 " ++ pystr (toString v.views),
      by simp [generateCaption, List.append_assoc]⟩
  · exact ⟨pystr "*" ++ replaceStar v.title ++ pystr "*\n\n",
      pystr "\n\n📅 " ++ v.dateStr ++ pystr " | 👀 " ++ pystr (toString v.views),
      by simp [generateCaption, List.append_assoc]⟩
  · intro h; rw [truncateText, if_neg (Nat.not_lt.mpr h)]
  · intro h; rw [truncateText, if_pos h]
  · intro beh message channels retries ch mId p hp
    rw [sendText_payload beh message channels retries ch mId p hp]
    exact truncateText_length message
  · intro beh deleteFlag caption f channels fs ch mId p hp
    rw [sendVideoE_payload beh deleteFlag caption f channels fs ch mId p hp]
    exact truncateText_length caption

/-- Witness for C8: a 1030-character text is truncated to 1021 characters
plus the ellipsis marker. -/
theorem c8_caption_escaping_truncation_witness :
    truncateText (List.replicate 1030 'a') MAX_CAPTION_LENGTH =
      (List.replicate 1030 'a').take (MAX_CAPTION_LENGTH - 3) ++ pystr "..." :=
  (c8_caption_escaping_truncation c8video (List.replicate 1030 'a')).2.2.2.2.2.1
    (by rw [List.length_replicate]; decide)

/-- Claim C9 counterexample: with deletion enabled, a publish-side failure
for the item whose artifact is `video_100_1.mp4` wipes the entire download
directory via `cleanup`: the unrelated artifact `video_100_2.mp4`, present
before, is removed as well — not left unchanged as the claim requires. -/
theorem c9_other_artifacts_also_deleted :
    pystr "video_100_2.mp4" ≠ pystr "video_100_1.mp4" ∧
    (handlePostingFailure ⟨{pystr "video_100_1.mp4", pystr "video_100_2.mp4"}⟩
        (pystr "video_100_1.mp4") true).files = ∅ := by
  refine ⟨by decide, ?_⟩
  rw [handlePostingFailure, if_pos (by simp), cleanup, if_pos rfl]

/-- Claim C9 (amended): on a publish-side failure with deletion enabled and
the failed item's artifact still present, `_handle_posting_failure` calls
`cleanup`, which removes every file in the download directory — the item's
own artifact and all other items' artifacts alike; and whenever `send_video`
raises, `_process_single_video` leaves the ledger state unchanged (the
identifier is not committed). -/
theorem c9_amended_failure_cleanup (fs : FS) (own : PyStr) (hmem : own ∈ fs.files) :
    (handlePostingFailure fs own true).files = ∅ ∧
    (∀ (st : AppState) (fs0 : FS) (v : Video) (vid : Identifier) (env : ItemEnv)
        (f : FileInfo) (e : SendVideoError),
      env.raw = DlRaw.ok f →
      f.sizeBytes ≤ MAX_FILE_SIZE_MB * 1024 * 1024 →
      (sendVideoE env.beh DELETE_LOCAL_COPY (generateCaption v) f CHANNEL_IDS
          ⟨insert f.name fs0.files⟩).1 = .error e →
      (processSingleVideo st fs0 v vid env).st = st) := by
  constructor
  · rw [handlePostingFailure, if_pos hmem, cleanup, if_pos rfl]
  · intro st fs0 v vid env f e henv hsz herr
    have hd : download fs0 env.raw = (Except.ok f, ⟨insert f.name fs0.files⟩) := by
      rw [henv]
      simp [download, Nat.not_lt.mpr hsz]
    rcases hs : sendVideoE env.beh DELETE_LOCAL_COPY (generateCaption v) f CHANNEL_IDS
        ⟨insert f.name fs0.files⟩ with ⟨res2, fs2, evs⟩
    rw [hs] at herr
    have herr2 : res2 = Except.error e := herr
    subst herr2
    rcases e <;> simp only [processSingleVideo, hd, hs]

/-- Witness for C9 (amended): a directory holding two artifacts is emptied
by the posting-failure handling of the item owning the first. -/
theorem c9_amended_failure_cleanup_witness :
    (handlePostingFailure ⟨{pystr "a.mp4", pystr "b.mp4"}⟩ (pystr "a.mp4") true).files =
      ∅ :=
  (c9_amended_failure_cleanup ⟨{pystr "a.mp4", pystr "b.mp4"}⟩ (pystr "a.mp4")
    (by simp)).1

end Bloxa
